import Mathlib

/-!
Verification of the chat request lifecycle controller in
`src/static/js/chat_main.js` (iatoolkit front end).

The JavaScript source is shallowly embedded: pure helpers become Lean
functions, and the asynchronous request lifecycle (send / cancel / timeout /
settle) becomes an executable step function over an explicit state, driven by
a list of external events.  Each external event is processed atomically
together with the microtask cascade it triggers, which is faithful to the
browser event loop: promise continuations always drain before the next user
event or timer callback is dispatched.
-/

namespace ChatMain

/-- Company-specific configuration for the structured data field
(`window.company_ui_config`). -/
structure SpecificDataConfig where
  enabled : Bool
  id : String
  data_key : String
deriving DecidableEq, Repr

/-- Truthiness of `specificDataConfig && specificDataConfig.enabled`. -/
def cfgEnabled : Option SpecificDataConfig → Bool
  | some c => c.enabled
  | none => false

/-- A queued attachment as held by the file widget: name and raw bytes. -/
structure FileData where
  name : String
  content : List Nat
deriving DecidableEq, Repr

/-- Whitespace test used by `jsTrim`, modelling JavaScript trimming. -/
def isJsWhitespace (c : Char) : Bool :=
  c == ' ' || c == '\t' || c == '\n' || c == '\r'

/-- Model of JavaScript `String.prototype.trim`. -/
def jsTrim (s : String) : String :=
  String.mk (((s.data.dropWhile isJsWhitespace).reverse.dropWhile isJsWhitespace).reverse)

/-- A user transcript entry: rendered text plus whether the pencil (edit)
icon is attached. -/
structure UserMessage where
  text : String
  editable : Bool
deriving DecidableEq, Repr

/-- `displayUserMessage` (chat_main.js lines 243-277): chooses the rendered
text and whether the edit pencil is attached, from the submission snapshot.
String truthiness is non-emptiness. -/
def displayUserMessage (question selectedDescription specificDataValue
    selectedPrompt : String) : UserMessage :=
  if specificDataValue != "" && question != "" && selectedPrompt == "" then
    { text := specificDataValue ++ ": " ++ question, editable := true }
  else if specificDataValue != "" && question == "" && selectedPrompt != "" then
    -- source leaves the initial `pencil = true` untouched in this branch
    { text := specificDataValue ++ ": " ++ selectedDescription, editable := true }
  else if specificDataValue == "" && selectedPrompt != "" then
    { text := selectedDescription, editable := false }
  else
    { text := question, editable := true }

end ChatMain

/-- C4 counterexample: with structuredFieldValue `"ACME"`, empty question and
a selected prompt described `"Summarize"`, the transcript text is
`"ACME: Summarize"` as claimed, but the entry DOES carry the edit affordance
(`pencil` is never cleared in that branch), refuting the claim's
"no edit affordance". -/
theorem c4_edit_affordance_counterexample :
    (ChatMain.displayUserMessage "" "Summarize" "ACME" "p1").text = "ACME: Summarize" ∧
    ¬ ((ChatMain.displayUserMessage "" "Summarize" "ACME" "p1").editable = false) := by
  constructor
  · rfl
  · decide

/-- C4 amended: for a snapshot with structuredFieldValue non-empty, question
empty and a prompt selected, the rendered entry is
"{structuredFieldValue}: {selectedPromptDescription}" and it DOES carry the
edit affordance. -/
theorem c4_render_amended (desc sdv prompt : String)
    (hs : sdv ≠ "") (hp : prompt ≠ "") :
    (ChatMain.displayUserMessage "" desc sdv prompt).text = sdv ++ ": " ++ desc ∧
    (ChatMain.displayUserMessage "" desc sdv prompt).editable = true := by
  unfold ChatMain.displayUserMessage
  have h1 : (sdv != "") = true := by
    simpa using hs
  have h2 : (prompt != "") = true := by
    simpa using hp
  simp [h1, h2]

/-- Witness for `c4_render_amended` at a concrete snapshot. -/
theorem c4_render_amended_witness :
    (ChatMain.displayUserMessage "" "Summarize" "ACME" "p1").text = "ACME: Summarize" ∧
    (ChatMain.displayUserMessage "" "Summarize" "ACME" "p1").editable = true := by
  have h := c4_render_amended "Summarize" "ACME" "p1" (by decide) (by decide)
  exact ⟨h.1, h.2⟩

namespace ChatMain

/-- The standard base64 alphabet, indexed by sextet value. -/
def b64Char (n : Nat) : Char :=
  "ABCDEFGHIJKLMNOPQRSTUVWXYZabcdefghijklmnopqrstuvwxyz0123456789+/".toList.getD n '?'

/-- Base64 encoding of a byte sequence (the text-safe encoding produced by
`FileReader.readAsDataURL` after the data-URL prefix is split off). -/
def base64Encode : List Nat → String
  | [] => ""
  | [a] =>
      String.mk [b64Char (a % 256 / 4), b64Char (a % 4 * 16), '=', '=']
  | [a, b] =>
      String.mk [b64Char (a % 256 / 4), b64Char (a % 4 * 16 + b % 256 / 16),
        b64Char (b % 16 * 4), '=']
  | a :: b :: c :: rest =>
      String.mk [b64Char (a % 256 / 4), b64Char (a % 4 * 16 + b % 256 / 16),
        b64Char (b % 16 * 4 + c % 256 / 64), b64Char (c % 64)] ++ base64Encode rest

/-- Result shape of `toBase64` (chat_main.js lines 385-392): the file name and
the base64 payload of the data URL. -/
structure B64File where
  name : String
  base64 : String
deriving DecidableEq, Repr

/-- `toBase64`: encodes one queued file, fully, before resolving. -/
def toBase64 (f : FileData) : B64File :=
  { name := f.name, base64 := base64Encode f.content }

/-- One entry of the transmitted `files` array (lines 131-134). -/
structure EncodedFile where
  filename : String
  content : String
deriving DecidableEq, Repr

/-- The form values captured when a submission begins (lines 79-87 and 113):
trimmed question, raw prompt id, its description, the structured field value
(already trimmed, or `""` when the field is not enabled), and the queued
files. -/
structure Snapshot where
  question : String
  selectedPrompt : String
  selectedDescription : String
  specificDataValue : String
  files : List FileData
deriving DecidableEq, Repr

/-- Reading of the structured data input (lines 84-87): trimmed value when
the config exists and is enabled, otherwise the empty string. -/
def readSpecificDataValue (cfg : Option SpecificDataConfig) (raw : String) : String :=
  if cfgEnabled cfg then jsTrim raw else ""

/-- JavaScript object property assignment `obj[k] = v` on a string-keyed
object represented as an insertion-ordered association list. -/
def objInsert (obj : List (String × String)) (k v : String) : List (String × String) :=
  if obj.any (fun p => p.1 == k) then
    obj.map (fun p => if p.1 == k then (k, v) else p)
  else
    obj ++ [(k, v)]

/-- `client_data` assembly (lines 116-125): `prompt_name` and `question`
always, plus the configured structured key only when the config exists, is
enabled, and the (trimmed) value is truthy. -/
def buildClientData (cfg : Option SpecificDataConfig)
    (selectedPrompt question specificDataValue : String) : List (String × String) :=
  let base := [("prompt_name", selectedPrompt), ("question", question)]
  match cfg with
  | some c =>
      if c.enabled && specificDataValue != "" then
        objInsert base c.data_key specificDataValue
      else base
  | none => base

/-- The transmitted request body (lines 127-136). -/
structure Payload where
  question : String
  prompt_name : String
  client_data : List (String × String)
  files : List EncodedFile
  external_user_id : String
deriving DecidableEq, Repr

/-- Session-scoped globals consumed by the handler: the company UI config and
`window.externalUserId`. -/
structure Ctx where
  specificDataConfig : Option SpecificDataConfig
  externalUserId : String
deriving DecidableEq, Repr

/-- Payload assembly (lines 113-136): the `files` array is produced by
mapping the fully completed encodings over the snapshot's file list — the
join on `Promise.all` means the continuation only ever sees the complete
list of encodings. -/
def buildData (ctx : Ctx) (snap : Snapshot) : Payload :=
  let filesBase64 := snap.files.map toBase64
  { question := snap.question
    prompt_name := snap.selectedPrompt
    client_data := buildClientData ctx.specificDataConfig snap.selectedPrompt
      snap.question snap.specificDataValue
    files := filesBase64.map (fun fd => { filename := fd.name, content := fd.base64 })
    external_user_id := ctx.externalUserId }

/-- One record of `aditional_data.classify_documents`; `none` marks an absent
property (the JavaScript `in` test). -/
structure DocRecord where
  document_name : Option String
  document_type : Option String
  causes : Option (List String)
  is_valid : Option Bool
deriving DecidableEq, Repr

/-- A rendered document-validation card: filename, type badge (green on
valid), the success notice, and the itemized rejection causes when present. -/
structure DocCard where
  document_name : String
  document_type : String
  badgeSuccess : Bool
  validNotice : Bool
  rejectionCauses : Option (List String)
deriving DecidableEq, Repr

/-- A transcript entry appended by the renderer. -/
inductive Entry
  | userMsg (m : UserMessage)
  | answerSection (text : String)
  | errorNotice (cssClass : String) (text : String)
  | docCard (c : DocCard)
deriving DecidableEq, Repr

/-- The cancellation wording (lines 160-163). -/
def cancelNoticeEntry : Entry :=
  .errorNotice "alert-warning" "Solicitud cancelada por el usuario"

/-- The timeout wording (lines 166-169). -/
def timeoutNoticeEntry : Entry :=
  .errorNotice "alert-danger"
    "La solicitud ha excedido el tiempo límite de respuesta, intente nuevamente"

/-- An observable side effect of one event-loop step. -/
inductive Effect
  | showSpinner
  | hideSpinner
  | setButtonToStop
  | setButtonToSend
  | toggleSendStop (showStop : Bool)
  | removeFiles
  | append (e : Entry)
  | consoleWarn
  | consoleError
  | swalWarn
  | fetchStart (p : Payload)
deriving DecidableEq, Repr

/-- One iteration of the `display_document_validation` loop (lines 397-430):
a record missing any of the four required fields produces a `console.warn`
and nothing else; a complete record produces a card — success notice when
`is_valid`, itemized causes when invalid and the causes list is non-empty. -/
def renderDocEffect (d : DocRecord) : Effect :=
  match d.document_name, d.document_type, d.causes, d.is_valid with
  | some nm, some ty, some cs, some v =>
      Effect.append (Entry.docCard
        { document_name := nm
          document_type := ty
          badgeSuccess := v
          validNotice := v
          rejectionCauses := if !v && decide (0 < cs.length) then some cs else none })
  | _, _, _, _ => Effect.consoleWarn

/-- `display_document_validation` (lines 395-431): the loop over the record
sequence. -/
def display_document_validation : List DocRecord → List Effect
  | [] => []
  | d :: rest => renderDocEffect d :: display_document_validation rest

/-- Decoded success response body (line 141). -/
structure ResponseData where
  answer : Option String
  aditional_data : Option (List DocRecord)
deriving DecidableEq, Repr

/-- How the environment resolves the fetch issued by `callLLMAPI`:
success with a decodable body, success status with an undecodable body,
non-success status with a decodable body (carrying the optional
`error_message` field), non-success status with an undecodable body, or no
response at all.  Abort (cancel/timeout) is driven separately by the event
machine, since it re-throws out of `callLLMAPI`. -/
inductive FetchResult
  | ok (answer : Option String) (docs : Option (List DocRecord))
  | okBadBody (emsg : String)
  | httpErr (errorMessageField : Option String)
  | httpErrBadBody (emsg : String)
  | netErr (emsg : String)
deriving DecidableEq, Repr

/-- `callLLMAPI` (lines 188-240), non-abort paths: returns the decoded
response on success and `null` otherwise, rendering a server-provided or
fallback error message for every failure.  A response decode failure (either
status) throws inside the `try` and is caught by the generic catch, which
renders the connectivity wording. -/
def callLLMAPI : FetchResult → Option ResponseData × List Entry
  | .ok a docs => (some { answer := a, aditional_data := docs }, [])
  | .okBadBody e => (none, [.errorNotice "error-section" ("Error de conexión: " ++ e)])
  | .httpErr f =>
      (none, [.errorNotice "error-section"
        (match f with
         | some m => if m != "" then m else "Error desconocido del servidor"
         | none => "Error desconocido del servidor")])
  | .httpErrBadBody e => (none, [.errorNotice "error-section" ("Error de conexión: " ++ e)])
  | .netErr e => (none, [.errorNotice "error-section" ("Error de conexión: " ++ e)])

/-- Where a started submission is parked: awaiting the attachment encodings
(`await Promise.all`, before the abort controller exists) or awaiting the
network call (controller assigned, deadline timer armed). -/
inductive Phase
  | encoding
  | inFlight
deriving DecidableEq, Repr

/-- A started submission: its controller id and the captured snapshot. -/
structure Req where
  id : Nat
  snap : Snapshot
  phase : Phase
deriving DecidableEq, Repr

/-- The live form widgets (`#question`, the prompt selector, the structured
data input, and the file widget). -/
structure Widgets where
  question : String
  agentSelectValue : String
  agentSelectDescription : String
  specificDataRaw : String
  files : List FileData
deriving DecidableEq, Repr

/-- The module-level mutable state of chat_main.js plus the submissions
currently parked at an await point.  `pending` is a list precisely so that
"at most one request in flight" is a proved invariant, not a modelling
assumption. -/
structure St where
  isRequestInProgress : Bool
  currentAbortController : Option Nat
  isManualAbort : Bool
  widgets : Widgets
  nextId : Nat
  pending : List Req
  transcript : List Entry
deriving DecidableEq, Repr

/-- Page-load state: no request, no controller, flag clear, empty widgets. -/
def initSt : St :=
  { isRequestInProgress := false
    currentAbortController := none
    isManualAbort := false
    widgets := { question := "", agentSelectValue := "", agentSelectDescription := ""
                 specificDataRaw := "", files := [] }
    nextId := 0
    pending := []
    transcript := [] }

/-- The microtask cascade run when the in-flight fetch rejects with
`AbortError`: `callLLMAPI`'s catch clears the timer and re-throws; the catch
in `handleChatMessage` (lines 154-178) logs, renders cancellation wording
when `window.isManualAbort` is set (resetting the flag) and timeout wording
otherwise, then runs the spinner/affordance cleanup — and the `finally`
(lines 179-183) runs the same cleanup again and clears the file widget. -/
def abortCascade (s : St) : St × List Effect :=
  let notice := if s.isManualAbort then cancelNoticeEntry else timeoutNoticeEntry
  ({ s with
      isManualAbort := false
      isRequestInProgress := false
      currentAbortController := none
      widgets := { s.widgets with files := [] }
      pending := []
      transcript := s.transcript ++ [notice] },
   [Effect.consoleError, Effect.append notice,
    Effect.hideSpinner, Effect.setButtonToSend,
    Effect.hideSpinner, Effect.setButtonToSend, Effect.removeFiles])

/-- `abortCurrentRequest` (lines 313-320): guarded on the global controller
and in-progress flag; sets the global `window.isManualAbort`, aborts the
controller (whose rejection cascade drains before any further external
event), restores the Send affordance and hides the spinner. -/
def abortCurrentRequest (s : St) : St × List Effect :=
  match s.currentAbortController with
  | some _ =>
      if s.isRequestInProgress then
        let s0 := { s with isManualAbort := true }
        let sync := [Effect.toggleSendStop false, Effect.hideSpinner]
        match s0.pending with
        | [r] =>
            if r.phase = Phase.inFlight then
              let (s1, e1) := abortCascade s0
              (s1, sync ++ e1)
            else (s0, sync)
        | _ => (s0, sync)
      else (s, [])
  | none => (s, [])

/-- Deadline expiry (line 204): the armed timer aborts the controller of the
in-flight request; the same rejection cascade drains, with the manual flag
untouched. -/
def timerFire (s : St) : St × List Effect :=
  match s.pending with
  | [r] => if r.phase = Phase.inFlight then abortCascade s else (s, [])
  | _ => (s, [])

/-- The fetch of the in-flight request settles without an abort: `callLLMAPI`
returns (lines 139-153), the answer is appended only when truthy, the
commented-out document-classification block renders nothing, and the
`finally` cleanup runs once. -/
def settleStep (s : St) (r : FetchResult) : St × List Effect :=
  match s.pending with
  | [req] =>
      if req.phase = Phase.inFlight then
        let (resp, errEntries) := callLLMAPI r
        let ansEntries :=
          match resp with
          | some rd =>
              match rd.answer with
              | some a => if a != "" then [Entry.answerSection a] else []
              | none => []
          | none => []
        let newEntries := errEntries ++ ansEntries
        ({ s with
            isRequestInProgress := false
            currentAbortController := none
            widgets := { s.widgets with files := [] }
            pending := []
            transcript := s.transcript ++ newEntries },
         newEntries.map Effect.append ++
           [Effect.hideSpinner, Effect.setButtonToSend, Effect.removeFiles])
      else (s, [])
  | _ => (s, [])

/-- The `Promise.all` join over the attachment encodings completes: the
payload is assembled from the complete snapshot, the abort controller is
created and the fetch is issued (lines 113-136 and 202-213). -/
def encodingDone (ctx : Ctx) (s : St) : St × List Effect :=
  match s.pending with
  | [r] =>
      if r.phase = Phase.encoding then
        ({ s with
            pending := [{ r with phase := Phase.inFlight }]
            currentAbortController := some r.id },
         [Effect.fetchStart (buildData ctx r.snap)])
      else (s, [])
  | _ => (s, [])

/-- `handleChatMessage` (lines 72-136) up to its first real suspension point:
the re-entrancy guard redirects to `abortCurrentRequest`; an empty
question-and-prompt is rejected with a validation popup; otherwise the user
echo is rendered, the affordance flips to Stop, the widgets are cleared, and
the submission parks at the encoding join (or goes straight to the fetch
when no files are queued, since `Promise.all` over an empty list resolves
within the same microtask drain). -/
def handleChatMessage (ctx : Ctx) (s : St) : St × List Effect :=
  if s.isRequestInProgress then abortCurrentRequest s
  else
    let question := jsTrim s.widgets.question
    let selectedPrompt := s.widgets.agentSelectValue
    let selectedDescription := s.widgets.agentSelectDescription
    let specificDataValue := readSpecificDataValue ctx.specificDataConfig s.widgets.specificDataRaw
    if question == "" && selectedPrompt == "" then (s, [Effect.swalWarn])
    else
      let userEntry := Entry.userMsg
        (displayUserMessage question selectedDescription specificDataValue selectedPrompt)
      let w1 : Widgets :=
        { question := ""
          agentSelectValue := ""
          agentSelectDescription := ""
          specificDataRaw := if cfgEnabled ctx.specificDataConfig then "" else s.widgets.specificDataRaw
          files := s.widgets.files }
      let snap : Snapshot :=
        { question := question, selectedPrompt := selectedPrompt
          selectedDescription := selectedDescription
          specificDataValue := specificDataValue, files := s.widgets.files }
      let base := [Effect.append userEntry, Effect.showSpinner, Effect.setButtonToStop]
      if snap.files.isEmpty then
        ({ s with
            transcript := s.transcript ++ [userEntry]
            widgets := w1
            isRequestInProgress := true
            nextId := s.nextId + 1
            pending := s.pending ++ [{ id := s.nextId, snap := snap, phase := Phase.inFlight }]
            currentAbortController := some s.nextId },
         base ++ [Effect.fetchStart (buildData ctx snap)])
      else
        ({ s with
            transcript := s.transcript ++ [userEntry]
            widgets := w1
            isRequestInProgress := true
            nextId := s.nextId + 1
            pending := s.pending ++ [{ id := s.nextId, snap := snap, phase := Phase.encoding }] },
         base)

/-- External events: widget edits, the two click handlers, completion of the
encoding join, deadline expiry, and fetch settlement. -/
inductive Event
  | setQuestion (q : String)
  | selectPrompt (v d : String)
  | setSpecificData (v : String)
  | attachFile (f : FileData)
  | clickSend
  | clickStop
  | encDone
  | timer
  | settle (r : FetchResult)
deriving Repr

/-- Dispatch one external event together with its microtask cascade. -/
def stepE (ctx : Ctx) (s : St) : Event → St × List Effect
  | .setQuestion q => ({ s with widgets := { s.widgets with question := q } }, [])
  | .selectPrompt v d =>
      ({ s with widgets := { s.widgets with agentSelectValue := v, agentSelectDescription := d } }, [])
  | .setSpecificData v => ({ s with widgets := { s.widgets with specificDataRaw := v } }, [])
  | .attachFile f => ({ s with widgets := { s.widgets with files := s.widgets.files ++ [f] } }, [])
  | .clickSend => handleChatMessage ctx s
  | .clickStop => abortCurrentRequest s
  | .encDone => encodingDone ctx s
  | .timer => timerFire s
  | .settle r => settleStep s r

/-- Run a list of external events from a given state, accumulating effects. -/
def runFrom (ctx : Ctx) (s : St) : List Event → St × List Effect
  | [] => (s, [])
  | e :: rest =>
      let (s1, ef1) := stepE ctx s e
      let (s2, ef2) := runFrom ctx s1 rest
      (s2, ef1 ++ ef2)

/-- Run a list of external events from the page-load state. -/
def run (ctx : Ctx) (evs : List Event) : St × List Effect :=
  runFrom ctx initSt evs

/-- Executable state invariant: the manual-abort flag is clear between
events, and the pending submissions are either none (idle, no controller),
exactly one parked at the encoding join (no controller yet), or exactly one
in flight whose controller is the global one. -/
def InvB (s : St) : Bool :=
  !s.isManualAbort &&
    (match s.pending with
     | [] => !s.isRequestInProgress && s.currentAbortController == none
     | [r] =>
         s.isRequestInProgress &&
           (match r.phase with
            | .encoding => s.currentAbortController == none
            | .inFlight => s.currentAbortController == some r.id)
     | _ => false)

/-- The state invariant as a proposition. -/
abbrev StInv (s : St) : Prop := InvB s = true

theorem inv_init : StInv initSt := rfl

theorem inv_abortCascade (s : St) : StInv (abortCascade s).1 := by
  simp [StInv, InvB, abortCascade]

theorem inv_abortCurrentRequest {s : St} (h : StInv s) : StInv (abortCurrentRequest s).1 := by
  unfold abortCurrentRequest
  cases hc : s.currentAbortController with
  | none => simpa using h
  | some cid =>
    cases hr : s.isRequestInProgress with
    | false => simpa [hr] using h
    | true =>
      cases hp : s.pending with
      | nil => simp [StInv, InvB, hp, hr] at h
      | cons r tl =>
        cases tl with
        | nil =>
          cases hph : r.phase with
          | encoding => simp [StInv, InvB, hp, hph, hc] at h
          | inFlight =>
            simp only [hr, hp, hph, if_true]
            simpa [hp, hph] using inv_abortCascade { s with isManualAbort := true }
        | cons r2 tl2 => simp [StInv, InvB, hp] at h

theorem inv_timerFire {s : St} (h : StInv s) : StInv (timerFire s).1 := by
  unfold timerFire
  cases hp : s.pending with
  | nil => simpa using h
  | cons r tl =>
    cases tl with
    | nil =>
      cases hph : r.phase with
      | encoding => simpa [hph, hp] using h
      | inFlight => simpa [hph] using inv_abortCascade s
    | cons r2 tl2 => simpa using h

theorem inv_settleStep {s : St} (h : StInv s) (r : FetchResult) : StInv (settleStep s r).1 := by
  unfold settleStep
  cases hp : s.pending with
  | nil => simpa using h
  | cons req tl =>
    cases tl with
    | nil =>
      cases hph : req.phase with
      | encoding => simpa [hph, hp] using h
      | inFlight =>
        simp only [hph, if_true]
        simp only [StInv, InvB] at h ⊢
        simp [hp] at h
        simp [h.1]
    | cons r2 tl2 => simpa using h

theorem inv_encodingDone {s : St} (ctx : Ctx) (h : StInv s) : StInv (encodingDone ctx s).1 := by
  unfold encodingDone
  cases hp : s.pending with
  | nil => simpa using h
  | cons req tl =>
    cases tl with
    | nil =>
      cases hph : req.phase with
      | encoding =>
        simp only [hph, if_true]
        simp only [StInv, InvB] at h ⊢
        simp [hp, hph] at h
        simp [h.1, h.2.1]
      | inFlight => simpa [hph, hp] using h
    | cons r2 tl2 => simpa using h

theorem inv_handleChatMessage {s : St} (ctx : Ctx) (h : StInv s) :
    StInv (handleChatMessage ctx s).1 := by
  unfold handleChatMessage
  cases hr : s.isRequestInProgress with
  | true => simpa [hr] using inv_abortCurrentRequest h
  | false =>
    have hidle : s.pending = [] ∧ s.currentAbortController = none ∧ s.isManualAbort = false := by
      cases hp : s.pending with
      | nil =>
        simp [StInv, InvB, hp] at h
        exact ⟨rfl, h.2.2, h.1⟩
      | cons r tl =>
        cases tl with
        | nil => simp [StInv, InvB, hp, hr] at h
        | cons r2 tl2 => simp [StInv, InvB, hp] at h
    by_cases hv : (jsTrim s.widgets.question == "" && s.widgets.agentSelectValue == "") = true
    · simpa [hr, hv] using h
    · by_cases hf : s.widgets.files.isEmpty
      · simp [StInv, InvB, hr, hv, hf, hidle.1, hidle.2.2]
      · simp [StInv, InvB, hr, hv, hf, hidle.1, hidle.2.1, hidle.2.2]

theorem inv_stepE {s : St} (ctx : Ctx) (h : StInv s) (e : Event) : StInv (stepE ctx s e).1 := by
  cases e with
  | setQuestion q => simpa [stepE, StInv, InvB] using h
  | selectPrompt v d => simpa [stepE, StInv, InvB] using h
  | setSpecificData v => simpa [stepE, StInv, InvB] using h
  | attachFile f => simpa [stepE, StInv, InvB] using h
  | clickSend => exact inv_handleChatMessage ctx h
  | clickStop => exact inv_abortCurrentRequest h
  | encDone => exact inv_encodingDone ctx h
  | timer => exact inv_timerFire h
  | settle r => exact inv_settleStep h r

theorem inv_runFrom {s : St} (ctx : Ctx) (h : StInv s) (evs : List Event) :
    StInv (runFrom ctx s evs).1 := by
  induction evs generalizing s with
  | nil => simpa [runFrom] using h
  | cons e rest ih =>
    simp only [runFrom]
    exact ih (inv_stepE ctx h e)

theorem inv_run (ctx : Ctx) (evs : List Event) : StInv (run ctx evs).1 :=
  inv_runFrom ctx inv_init evs

theorem inv_pending_len {s : St} (h : StInv s) : s.pending.length ≤ 1 := by
  cases hp : s.pending with
  | nil => simp
  | cons r tl =>
    cases tl with
    | nil => simp
    | cons r2 tl2 => simp [StInv, InvB, hp] at h

/-- Number of send-affordance resets (`setButtonToSend`) in an effect list:
the UI-cleanup metric of the spec's single-funnel property. -/
def countSetSend : List Effect → Nat
  | [] => 0
  | Effect.setButtonToSend :: rest => countSetSend rest + 1
  | _ :: rest => countSetSend rest

/-- Number of `filePond.removeFiles()` calls in an effect list. -/
def countRemoveFiles : List Effect → Nat
  | [] => 0
  | Effect.removeFiles :: rest => countRemoveFiles rest + 1
  | _ :: rest => countRemoveFiles rest

theorem countSetSend_append (a b : List Effect) :
    countSetSend (a ++ b) = countSetSend a + countSetSend b := by
  induction a with
  | nil => simp [countSetSend]
  | cons e t ih =>
    cases e <;> simp [countSetSend, ih]
    all_goals omega

theorem countSetSend_map_append (l : List Entry) :
    countSetSend (l.map Effect.append) = 0 := by
  induction l with
  | nil => rfl
  | cons e t ih => simpa [countSetSend] using ih

theorem countRemoveFiles_map_append (l : List Entry) :
    countRemoveFiles (l.map Effect.append) = 0 := by
  induction l with
  | nil => rfl
  | cons e t ih => simpa [countRemoveFiles] using ih

/-- Sample session context used to instantiate the lifecycle theorems. -/
def sampleCtx : Ctx := { specificDataConfig := none, externalUserId := "u1" }

/-- Sample snapshot of a plain-question submission. -/
def sampleSnapshot : Snapshot :=
  { question := "hola", selectedPrompt := "", selectedDescription := ""
    specificDataValue := "", files := [] }

/-- A sample in-flight request built from `sampleSnapshot`. -/
def sampleReq : Req := { id := 0, snap := sampleSnapshot, phase := Phase.inFlight }

/-- A sample state with one request in flight. -/
def sampleInFlight : St :=
  { isRequestInProgress := true
    currentAbortController := some 0
    isManualAbort := false
    widgets := initSt.widgets
    nextId := 1
    pending := [sampleReq]
    transcript := [] }

/-- A sample queued attachment. -/
def sampleFile : FileData := { name := "a.txt", content := [1, 2, 3] }

end ChatMain

open ChatMain

/-- C1: a Send intent arriving while a request is in progress is handled
identically to a Cancel intent (the re-entrancy guard calls
`abortCurrentRequest` and returns), and along every sequence of external
events at most one request is pending at any instant. -/
theorem c1_single_flight (ctx : Ctx) :
    (∀ s : St, s.isRequestInProgress = true →
      stepE ctx s Event.clickSend = stepE ctx s Event.clickStop) ∧
    (∀ evs : List Event, (run ctx evs).1.pending.length ≤ 1) := by
  constructor
  · intro s h
    simp [stepE, handleChatMessage, h]
  · intro evs
    exact inv_pending_len (inv_run ctx evs)

/-- Witness for `c1_single_flight`: the guard equality at a concrete
in-flight state, and the invariant along a concrete event script. -/
theorem c1_single_flight_witness :
    stepE sampleCtx sampleInFlight Event.clickSend
      = stepE sampleCtx sampleInFlight Event.clickStop ∧
    (run sampleCtx [Event.setQuestion "hola", Event.clickSend]).1.pending.length ≤ 1 :=
  ⟨(c1_single_flight sampleCtx).1 sampleInFlight rfl,
   (c1_single_flight sampleCtx).2 [Event.setQuestion "hola", Event.clickSend]⟩

/-- C2 counterexample: for a submission that times out, the UI cleanup runs
twice, not exactly once — the catch block (lines 177-178) and the finally
block (lines 180-181) each reset the affordance and hide the spinner. -/
theorem c2_cleanup_twice_counterexample :
    countSetSend (run sampleCtx [Event.setQuestion "hola", Event.clickSend, Event.timer]).2 = 2 ∧
    countSetSend (run sampleCtx [Event.setQuestion "hola", Event.clickSend, Event.timer]).2 ≠ 1 := by
  constructor
  · rfl
  · decide

/-- C2 amended: the cleanup always runs and the state returns to the Idle
projection on every outcome, but it runs exactly once only on the
success / server-error / connectivity paths; on the cancel and timeout
(abort) paths the idempotent cleanup runs twice. -/
theorem c2_cleanup_amended (ctx : Ctx) (s : St) (req : Req) (h : StInv s)
    (hp : s.pending = [req]) (hph : req.phase = Phase.inFlight) :
    (∀ fr : FetchResult,
      countSetSend (stepE ctx s (Event.settle fr)).2 = 1 ∧
      (stepE ctx s (Event.settle fr)).1.isRequestInProgress = false) ∧
    (countSetSend (stepE ctx s Event.clickStop).2 = 2 ∧
      (stepE ctx s Event.clickStop).1.isRequestInProgress = false) ∧
    (countSetSend (stepE ctx s Event.timer).2 = 2 ∧
      (stepE ctx s Event.timer).1.isRequestInProgress = false) := by
  have hflag : s.isManualAbort = false ∧ s.isRequestInProgress = true ∧
      s.currentAbortController = some req.id := by
    simp [StInv, InvB, hp, hph] at h
    exact ⟨h.1, h.2.1, h.2.2⟩
  refine ⟨?_, ?_, ?_⟩
  · intro fr
    simp only [stepE, settleStep, hp, hph, if_true]
    constructor
    · simp [countSetSend_append, countSetSend_map_append, countSetSend]
    · trivial
  · simp only [stepE, abortCurrentRequest, hflag.2.2, hflag.2.1, if_true]
    simp only [hp, hph, if_true]
    constructor
    · simp [abortCascade, countSetSend_append, countSetSend]
    · simp [abortCascade]
  · simp only [stepE, timerFire, hp, hph, if_true]
    constructor
    · simp [abortCascade, hflag.1, countSetSend_append, countSetSend]
    · simp [abortCascade]

/-- Witness for `c2_cleanup_amended` at the sample in-flight state. -/
theorem c2_cleanup_amended_witness :
    (countSetSend (stepE sampleCtx sampleInFlight (Event.settle (FetchResult.netErr "x"))).2 = 1 ∧
      (stepE sampleCtx sampleInFlight (Event.settle (FetchResult.netErr "x"))).1.isRequestInProgress = false) ∧
    (countSetSend (stepE sampleCtx sampleInFlight Event.clickStop).2 = 2 ∧
      (stepE sampleCtx sampleInFlight Event.clickStop).1.isRequestInProgress = false) := by
  have h := c2_cleanup_amended sampleCtx sampleInFlight sampleReq (by decide) rfl rfl
  exact ⟨h.1 (FetchResult.netErr "x"), h.2.1⟩

/-- C3 counterexample: the user cancels during the attachment-encoding phase,
before the abort controller exists (`currentAbortController` is still null),
so `abortCurrentRequest` does nothing; the request proceeds and its later
deadline expiry renders the timeout wording — a manual cancel before any
response that does NOT yield the cancellation wording. -/
theorem c3_cancel_during_encoding_counterexample :
    cancelNoticeEntry ∉ (run sampleCtx [Event.attachFile sampleFile, Event.setQuestion "hola",
      Event.clickSend, Event.clickStop, Event.encDone, Event.timer]).1.transcript ∧
    timeoutNoticeEntry ∈ (run sampleCtx [Event.attachFile sampleFile, Event.setQuestion "hola",
      Event.clickSend, Event.clickStop, Event.encDone, Event.timer]).1.transcript := by
  constructor
  · decide
  · decide

/-- C3 amended: the flag is the global `window.isManualAbort`, not an
instance field, but it is reset within the same microtask drain, so from any
invariant-satisfying in-flight state a manual cancel renders exactly the
cancellation wording and a deadline expiry renders exactly the timeout
wording, and the flag is clear again afterwards (no cross-request
mislabeling).  A manual cancel during the encoding phase, however, is
silently ignored (see the counterexample). -/
theorem c3_wording_amended (ctx : Ctx) (s : St) (req : Req) (h : StInv s)
    (hp : s.pending = [req]) (hph : req.phase = Phase.inFlight) :
    ((stepE ctx s Event.clickStop).1.transcript = s.transcript ++ [cancelNoticeEntry] ∧
      (stepE ctx s Event.clickStop).1.isManualAbort = false) ∧
    ((stepE ctx s Event.timer).1.transcript = s.transcript ++ [timeoutNoticeEntry] ∧
      (stepE ctx s Event.timer).1.isManualAbort = false) := by
  have hflag : s.isManualAbort = false ∧ s.isRequestInProgress = true ∧
      s.currentAbortController = some req.id := by
    simp [StInv, InvB, hp, hph] at h
    exact ⟨h.1, h.2.1, h.2.2⟩
  constructor
  · simp only [stepE, abortCurrentRequest, hflag.2.2, hflag.2.1, if_true]
    simp only [hp, hph, if_true]
    simp [abortCascade]
  · simp only [stepE, timerFire, hp, hph, if_true]
    simp [abortCascade, hflag.1]

/-- Witness for `c3_wording_amended` at the sample in-flight state. -/
theorem c3_wording_amended_witness :
    (stepE sampleCtx sampleInFlight Event.clickStop).1.transcript = [cancelNoticeEntry] ∧
    (stepE sampleCtx sampleInFlight Event.timer).1.transcript = [timeoutNoticeEntry] := by
  have h := c3_wording_amended sampleCtx sampleInFlight sampleReq (by decide) rfl rfl
  exact ⟨h.1.1, h.2.1⟩

namespace ChatMain

theorem countRemoveFiles_append (a b : List Effect) :
    countRemoveFiles (a ++ b) = countRemoveFiles a + countRemoveFiles b := by
  induction a with
  | nil => simp [countRemoveFiles]
  | cons e t ih =>
    cases e <;> simp [countRemoveFiles, ih]
    all_goals omega

/-- Sample snapshot of a submission with one queued attachment. -/
def sampleSnapshotF : Snapshot :=
  { question := "hola", selectedPrompt := "", selectedDescription := ""
    specificDataValue := "", files := [sampleFile] }

/-- A sample request parked at the encoding join. -/
def sampleEncReq : Req := { id := 0, snap := sampleSnapshotF, phase := Phase.encoding }

/-- A sample state with one submission awaiting its attachment encodings. -/
def sampleEncoding : St :=
  { isRequestInProgress := true
    currentAbortController := none
    isManualAbort := false
    widgets := initSt.widgets
    nextId := 1
    pending := [sampleEncReq]
    transcript := [] }

/-- A complete, valid document-validation record. -/
def sampleValidDoc : DocRecord :=
  { document_name := some "f.pdf", document_type := some "invoice"
    causes := some [], is_valid := some true }

/-- A document-validation record missing the required `is_valid` field. -/
def sampleBadDoc : DocRecord :=
  { document_name := some "g.pdf", document_type := some "invoice"
    causes := some [], is_valid := none }

/-- Recognizer for document-validation card entries in the transcript. -/
def isDocCardEntry : Entry → Bool
  | .docCard _ => true
  | _ => false

/-- A sample enabled structured-field configuration. -/
def sampleCfg : SpecificDataConfig :=
  { enabled := true, id := "ruc-input", data_key := "ruc" }

end ChatMain

/-- C5: the payload's `files` array is exactly the full list of completed
encodings of the snapshot's queued files (one fully encoded entry per file,
length preserved), and the fetch for a submission parked at the encoding
join is issued only with that fully assembled payload. -/
theorem c5_join_barrier (ctx : Ctx) :
    (∀ snap : Snapshot,
      (buildData ctx snap).files =
        snap.files.map (fun f => { filename := f.name, content := base64Encode f.content }) ∧
      (buildData ctx snap).files.length = snap.files.length) ∧
    (∀ (s : St) (req : Req), s.pending = [req] → req.phase = Phase.encoding →
      (stepE ctx s Event.encDone).2 = [Effect.fetchStart (buildData ctx req.snap)]) := by
  constructor
  · intro snap
    constructor
    · simp [buildData, toBase64]
    · simp [buildData]
  · intro s req hp hph
    simp [stepE, encodingDone, hp, hph]

/-- Witness for `c5_join_barrier` at a concrete snapshot and encoding
state. -/
theorem c5_join_barrier_witness :
    (buildData sampleCtx sampleSnapshotF).files =
      [{ filename := "a.txt", content := base64Encode [1, 2, 3] }] ∧
    (stepE sampleCtx sampleEncoding Event.encDone).2 =
      [Effect.fetchStart (buildData sampleCtx sampleEncReq.snap)] := by
  have h := c5_join_barrier sampleCtx
  exact ⟨((h.1 sampleSnapshotF).1).trans rfl, h.2 sampleEncoding sampleEncReq rfl rfl⟩

/-- C6 counterexample: a successful response carrying a
`classify_documents` list with a complete valid record renders NO
document-validation card and logs no diagnostic for the malformed sibling —
the call to `display_document_validation` (lines 148-152) is commented out,
so the claimed rendering never happens on a backend response. -/
theorem c6_not_rendered_counterexample :
    (run sampleCtx [Event.setQuestion "hola", Event.clickSend,
        Event.settle (FetchResult.ok (some "listo")
          (some [sampleBadDoc, sampleValidDoc]))]).1.transcript.filter isDocCardEntry = [] ∧
    Effect.consoleWarn ∉ (run sampleCtx [Event.setQuestion "hola", Event.clickSend,
        Event.settle (FetchResult.ok (some "listo")
          (some [sampleBadDoc, sampleValidDoc]))]).2 ∧
    sampleValidDoc.is_valid = some true := by
  refine ⟨rfl, by decide, rfl⟩

/-- C6 amended: the `display_document_validation` function itself behaves as
claimed — each record missing a required field yields only a logged
diagnostic while every other record still renders, complete records render
cards with a success notice exactly when `is_valid` and an itemized causes
list exactly when invalid with non-empty causes — but the function's only
call site is commented out, so backend responses never trigger it. -/
theorem c6_validation_amended (pre post : List DocRecord) (d : DocRecord) :
    display_document_validation (pre ++ d :: post) =
      display_document_validation pre ++
        renderDocEffect d :: display_document_validation post ∧
    ((d.document_name.isSome && d.document_type.isSome &&
        d.causes.isSome && d.is_valid.isSome) = false →
      renderDocEffect d = Effect.consoleWarn) ∧
    (∀ nm ty cs v,
      d = { document_name := some nm, document_type := some ty
            causes := some cs, is_valid := some v } →
      renderDocEffect d = Effect.append (Entry.docCard
        { document_name := nm, document_type := ty, badgeSuccess := v, validNotice := v
          rejectionCauses := if !v && decide (0 < cs.length) then some cs else none })) := by
  refine ⟨?_, ?_, ?_⟩
  · induction pre with
    | nil => rfl
    | cons p t ih => simpa [display_document_validation] using ih
  · intro hmiss
    obtain ⟨n, t, c, v⟩ := d
    cases n <;> cases t <;> cases c <;> cases v <;>
      simp_all [renderDocEffect]
  · intro nm ty cs v hd
    subst hd
    rfl

/-- Witness for `c6_validation_amended`: the decomposition at a concrete
list, the diagnostic for a record missing `is_valid`, and the card for a
complete valid record. -/
theorem c6_validation_amended_witness :
    display_document_validation ([sampleBadDoc] ++ sampleValidDoc :: []) =
      display_document_validation [sampleBadDoc] ++
        renderDocEffect sampleValidDoc :: display_document_validation [] ∧
    renderDocEffect sampleBadDoc = Effect.consoleWarn ∧
    renderDocEffect sampleValidDoc = Effect.append (Entry.docCard
      { document_name := "f.pdf", document_type := "invoice", badgeSuccess := true
        validNotice := true, rejectionCauses := none }) :=
  ⟨(c6_validation_amended [sampleBadDoc] [] sampleValidDoc).1,
   (c6_validation_amended [] [] sampleBadDoc).2.1 (by decide),
   ((c6_validation_amended [] [] sampleValidDoc).2.2 "f.pdf" "invoice" [] true rfl).trans rfl⟩

/-- C7: every non-success status yields a `Failed` outcome (`null` result)
with exactly one rendered error message — the server's `error_message` when
the body decodes and the field is truthy (a 500 with
`{"error_message":"db down"}` renders exactly `"db down"`), the generic
fallback when the field is absent or empty, and the connectivity-wrapped
fallback when the body does not decode; no path is silently swallowed. -/
theorem c7_server_error :
    (∀ f : Option String, (callLLMAPI (FetchResult.httpErr f)).1 = none ∧
      (callLLMAPI (FetchResult.httpErr f)).2 ≠ []) ∧
    (∀ m : String, m ≠ "" →
      (callLLMAPI (FetchResult.httpErr (some m))).2 =
        [Entry.errorNotice "error-section" m]) ∧
    (callLLMAPI (FetchResult.httpErr none)).2 =
      [Entry.errorNotice "error-section" "Error desconocido del servidor"] ∧
    (callLLMAPI (FetchResult.httpErr (some ""))).2 =
      [Entry.errorNotice "error-section" "Error desconocido del servidor"] ∧
    (∀ e : String, (callLLMAPI (FetchResult.httpErrBadBody e)).1 = none ∧
      (callLLMAPI (FetchResult.httpErrBadBody e)).2 =
        [Entry.errorNotice "error-section" ("Error de conexión: " ++ e)]) := by
  refine ⟨?_, ?_, rfl, rfl, ?_⟩
  · intro f
    cases f with
    | none => exact ⟨rfl, by decide⟩
    | some m =>
      refine ⟨rfl, ?_⟩
      simp only [callLLMAPI]
      split <;> simp
  · intro m hm
    have hb : (m != "") = true := by simpa using hm
    simp [callLLMAPI, hb]
  · intro e
    exact ⟨rfl, rfl⟩

/-- Witness for `c7_server_error` at the spec's concrete scenario. -/
theorem c7_server_error_witness :
    (callLLMAPI (FetchResult.httpErr (some "db down"))).2 =
      [Entry.errorNotice "error-section" "db down"] :=
  c7_server_error.2.1 "db down" (by decide)

/-- C8: the configured transport key appears in `client_data` iff the field
is enabled and its trimmed value is non-empty, and when present it carries
exactly the trimmed, non-empty value — never an empty string.  (The
hypotheses only rule out a transport key colliding with the fixed
`prompt_name` / `question` keys.) -/
theorem c8_structured_field (c : SpecificDataConfig) (raw question selectedPrompt : String)
    (hk1 : c.data_key ≠ "prompt_name") (hk2 : c.data_key ≠ "question") :
    (((buildClientData (some c) selectedPrompt question
        (readSpecificDataValue (some c) raw)).lookup c.data_key).isSome
      ↔ (c.enabled = true ∧ jsTrim raw ≠ "")) ∧
    (∀ v, (buildClientData (some c) selectedPrompt question
        (readSpecificDataValue (some c) raw)).lookup c.data_key = some v →
      v = jsTrim raw ∧ v ≠ "") := by
  have h1 : (c.data_key == "prompt_name") = false := by
    simpa using hk1
  have h2 : (c.data_key == "question") = false := by
    simpa using hk2
  have h1s : ("prompt_name" == c.data_key) = false := by
    simpa using Ne.symm hk1
  have h2s : ("question" == c.data_key) = false := by
    simpa using Ne.symm hk2
  cases he : c.enabled with
  | false =>
    simp [buildClientData, readSpecificDataValue, cfgEnabled, he, List.lookup, h1, h2]
  | true =>
    by_cases hq : jsTrim raw = ""
    · simp [buildClientData, readSpecificDataValue, cfgEnabled, he, hq, List.lookup, h1, h2]
    · have hb : (jsTrim raw != "") = true := by simpa using hq
      simp [buildClientData, readSpecificDataValue, cfgEnabled, he, hb, hq,
        objInsert, List.lookup, h1, h2, h1s, h2s]

/-- Witness for `c8_structured_field` at a concrete enabled configuration
with a padded value. -/
theorem c8_structured_field_witness :
    ((buildClientData (some sampleCfg) "" "hola"
        (readSpecificDataValue (some sampleCfg) " ACME ")).lookup sampleCfg.data_key).isSome
      ↔ (sampleCfg.enabled = true ∧ jsTrim " ACME " ≠ "") :=
  (c8_structured_field sampleCfg " ACME " "hola" "" (by decide) (by decide)).1

/-- C9: on every settled outcome of an in-flight submission — success, server
error, connectivity error, manual cancel, or timeout — the `finally` block
calls `removeFiles` exactly once and the file widget ends empty. -/
theorem c9_files_cleared (ctx : Ctx) (s : St) (req : Req) (h : StInv s)
    (hp : s.pending = [req]) (hph : req.phase = Phase.inFlight) :
    (∀ fr : FetchResult,
      (stepE ctx s (Event.settle fr)).1.widgets.files = [] ∧
      countRemoveFiles (stepE ctx s (Event.settle fr)).2 = 1) ∧
    ((stepE ctx s Event.clickStop).1.widgets.files = [] ∧
      countRemoveFiles (stepE ctx s Event.clickStop).2 = 1) ∧
    ((stepE ctx s Event.timer).1.widgets.files = [] ∧
      countRemoveFiles (stepE ctx s Event.timer).2 = 1) := by
  have hflag : s.isManualAbort = false ∧ s.isRequestInProgress = true ∧
      s.currentAbortController = some req.id := by
    simp [StInv, InvB, hp, hph] at h
    exact ⟨h.1, h.2.1, h.2.2⟩
  refine ⟨?_, ?_, ?_⟩
  · intro fr
    simp only [stepE, settleStep, hp, hph, if_true]
    constructor
    · trivial
    · simp [countRemoveFiles_append, countRemoveFiles_map_append, countRemoveFiles]
  · simp only [stepE, abortCurrentRequest, hflag.2.2, hflag.2.1, if_true]
    simp only [hp, hph, if_true]
    constructor
    · simp [abortCascade]
    · simp [abortCascade, countRemoveFiles_append, countRemoveFiles]
  · simp only [stepE, timerFire, hp, hph, if_true]
    constructor
    · simp [abortCascade]
    · simp [abortCascade, countRemoveFiles_append, countRemoveFiles]

/-- Witness for `c9_files_cleared` at the sample in-flight state. -/
theorem c9_files_cleared_witness :
    (stepE sampleCtx sampleInFlight (Event.settle (FetchResult.netErr "x"))).1.widgets.files = [] ∧
    countRemoveFiles (stepE sampleCtx sampleInFlight Event.clickStop).2 = 1 := by
  have h := c9_files_cleared sampleCtx sampleInFlight sampleReq (by decide) rfl rfl
  exact ⟨(h.1 (FetchResult.netErr "x")).1, h.2.1.2⟩

/-- C10: when the fetch resolves successfully but the decoded `answer` field
is absent or empty (falsy), no transcript entry is appended at all — no bot
message and no error — and only the silent cleanup effects run. -/
theorem c10_falsy_answer (ctx : Ctx) (s : St) (req : Req)
    (hp : s.pending = [req]) (hph : req.phase = Phase.inFlight)
    (a : Option String) (ha : a = none ∨ a = some "")
    (docs : Option (List DocRecord)) :
    (stepE ctx s (Event.settle (FetchResult.ok a docs))).1.transcript = s.transcript ∧
    (stepE ctx s (Event.settle (FetchResult.ok a docs))).2 =
      [Effect.hideSpinner, Effect.setButtonToSend, Effect.removeFiles] := by
  rcases ha with ha | ha <;> subst ha <;>
    simp [stepE, settleStep, hp, hph, callLLMAPI]

/-- Witness for `c10_falsy_answer`: a successful settle with `answer`
absent leaves the transcript untouched. -/
theorem c10_falsy_answer_witness :
    (stepE sampleCtx sampleInFlight
        (Event.settle (FetchResult.ok none none))).1.transcript = [] ∧
    (stepE sampleCtx sampleInFlight (Event.settle (FetchResult.ok none none))).2 =
      [Effect.hideSpinner, Effect.setButtonToSend, Effect.removeFiles] := by
  have h := c10_falsy_answer sampleCtx sampleInFlight sampleReq rfl rfl none (Or.inl rfl) none
  exact ⟨h.1, h.2⟩
